import Mathlib

/-!
Verification of the snagg-bsky-bot content-acquisition and post-assembly
pipeline.  The TypeScript sources are shallowly embedded: network effects
(`fetch`, `uploadBlob`, `detectFacets`) become explicit environment records
whose fields are `Except`-valued outcomes, JS exceptions become
`Except.error`, JS `undefined`/`null` become `Option`, and JS string
truthiness (`x || y`, `if (x)`) is modelled by explicit emptiness tests.
-/

set_option maxRecDepth 4096

/-- JS truthiness of a `string | undefined | null` value: `undefined`, `null`
and the empty string are falsy. -/
def jsTruthy : Option String → Bool
  | some s => if s = "" then false else true
  | none => false

/-- JS `o || d` where `o : string | undefined | null` and `d : string`. -/
def jsOr (o : Option String) (d : String) : String :=
  match o with
  | some s => if s = "" then d else s
  | none => d

/-- JS `a || b` where both operands are `string | undefined | null` and the
result keeps the raw right operand when the left is falsy. -/
def jsOrKeep (a b : Option String) : Option String :=
  match a with
  | some s => if s = "" then b else a
  | none => b

/-- JS `a || d` where `a` and `d` are plain strings. -/
def strOr (a d : String) : String :=
  if a = "" then d else a

/-- Model of `t.replace(/\s+/g, "")`: remove every whitespace character. -/
def stripWs (s : String) : String :=
  String.mk (s.data.filter (fun c => !c.isWhitespace))

/-- Value of a hex digit, as used by `decodeURIComponent`. -/
def hexVal (c : Char) : Option Nat :=
  if '0' ≤ c ∧ c ≤ '9' then some (c.toNat - '0'.toNat)
  else if 'a' ≤ c ∧ c ≤ 'f' then some (c.toNat - 'a'.toNat + 10)
  else if 'A' ≤ c ∧ c ≤ 'F' then some (c.toNat - 'A'.toNat + 10)
  else none

/-- Model of the `decodeURIComponent` builtin at the character level: a `%`
followed by two hex digits decodes to the corresponding code point, any other
`%` raises `URIError`, every other character passes through. -/
def percentDecode : List Char → Except String (List Char)
  | [] => Except.ok []
  | '%' :: h1 :: h2 :: rest =>
    match hexVal h1, hexVal h2 with
    | some a, some b => (percentDecode rest).map (fun l => Char.ofNat (16 * a + b) :: l)
    | _, _ => Except.error "URIError: URI malformed"
  | '%' :: _ => Except.error "URIError: URI malformed"
  | c :: rest => (percentDecode rest).map (fun l => c :: l)

/-- The `decodeURIComponent` model on strings; may raise (`Except.error`). -/
def decodeURIComponent (s : String) : Except String String :=
  (percentDecode s.data).map String.mk

/-- The content record shared by every pipeline variant (the spec's
`ContentRecord`; the sources call it `PostData`).  Each variant populates the
fields it uses and leaves the rest `undefined` (`none`). -/
structure PostData where
  text : String
  imageBytes : Option (List Nat) := none
  imageMimeType : Option String := none
  imageUrl : Option String := none
  imageAlt : Option String := none
  externalUrl : Option String := none
  externalTitle : Option String := none
  externalDescription : Option String := none
deriving Repr, DecidableEq

/-- No media field (`imageBytes`, `imageUrl`, `externalUrl`) is set. -/
def mediaFree (r : PostData) : Prop :=
  r.imageBytes = none ∧ r.imageUrl = none ∧ r.externalUrl = none

/-- A record that carries nothing but its `text`. -/
def textOnly (r : PostData) : Prop :=
  r.imageBytes = none ∧ r.imageMimeType = none ∧ r.imageUrl = none ∧
    r.imageAlt = none ∧ r.externalUrl = none ∧ r.externalTitle = none ∧
    r.externalDescription = none

/-- The spec's ContentRecord invariant: at most one of `imageBytes`/`imageUrl`
is present (possibly together with `externalUrl`), and the record is text-only
iff no media field is set. -/
def recordInvariant (r : PostData) : Prop :=
  ¬(r.imageBytes ≠ none ∧ r.imageUrl ≠ none) ∧ (textOnly r ↔ mediaFree r)

namespace Unified

/-- Outcome of the `POST {base}/memes/generate/image` response object. -/
structure GenResponse where
  ok : Bool
  status : Nat
  statusText : String
  /-- Outcome of `response.text()` (read on the error path). -/
  textBody : Except String String
  /-- Outcome of `response.arrayBuffer()`: the raw image bytes, or a throw. -/
  arrayBuffer : Except String (List Nat)
  /-- Value of `response.headers.get("Content-Type")`. -/
  contentType : Option String
  /-- Value of `response.headers.get("X-Meme-Top-Text")`. -/
  topTextHdr : Option String
  /-- Value of `response.headers.get("X-Meme-Bottom-Text")`. -/
  bottomTextHdr : Option String
  /-- Value of `response.headers.get("X-Meme-Template")`. -/
  templateHdr : Option String

/-- Environment of one `fetchGeneratedMeme` run: the single `fetch` call
either throws (network error) or yields a response object. -/
structure GenEnv where
  fetchResult : Except String GenResponse

/-- One parsed meme JSON object as `fetchRandomMeme` sees it (untyped JSON, so
every field may be absent). -/
structure Meme where
  title : Option String := none
  image_url : Option String := none
  ai_alt_text : Option String := none
  description : Option String := none
  tags : Option (List String) := none
deriving Repr, DecidableEq

/-- The `GET {base}/random?count=1` response object. -/
structure RandListing where
  ok : Bool
  status : Nat
  statusText : String
  /-- Outcome of `response.json()`; the payload is reduced to `json?.data?.memes`
  (`none` when the path is missing). -/
  json : Except String (Option (List Meme))

/-- Response object of the image download `fetch(imageUrl)`. -/
structure ImgResponse where
  ok : Bool
  status : Nat
  statusText : String
  arrayBuffer : Except String (List Nat)
  contentType : Option String

/-- Environment of one `fetchRandomMeme` run. -/
structure RandEnv where
  fetchListing : Except String RandListing
  /-- The image download `fetch(meme.image_url)`, a function of the (possibly
  undefined) URL. -/
  fetchImage : Option String → Except String ImgResponse

/-- The post text built by `fetchGeneratedMeme` from the decoded caption
headers: both captions joined by a separator, a single caption alone, or the
fixed default. -/
def genPostText (topText bottomText : String) : String :=
  if topText ≠ "" ∧ bottomText ≠ "" then
    topText ++ " / " ++ bottomText
  else if topText ≠ "" ∨ bottomText ≠ "" then
    strOr topText bottomText
  else
    "Fresh meme from snagg.meme 🔥"

/-- The alt text built by `fetchGeneratedMeme`: "Meme", then the optional
template, top and bottom parts, joined by " - ". -/
def genAltText (templateName topText bottomText : String) : String :=
  String.intercalate " - "
    (["Meme"] ++
      (if templateName ≠ "" then ["(" ++ templateName ++ ")"] else []) ++
      (if topText ≠ "" then ["Top text: \"" ++ topText ++ "\""] else []) ++
      (if bottomText ≠ "" then ["Bottom text: \"" ++ bottomText ++ "\""] else []))

/-- Body of `fetchGeneratedMeme` (the code inside its `try`), before the
surrounding `catch`: `Except.error` is a JS exception in flight. -/
def fetchGeneratedMemeBody (env : GenEnv) : Except String (Option PostData) :=
  match env.fetchResult with
  | Except.error e => Except.error e
  | Except.ok response =>
    if !response.ok then
      match response.textBody with
      | Except.error e => Except.error e
      | Except.ok _errorText => Except.ok none
    else
      match response.arrayBuffer with
      | Except.error e => Except.error e
      | Except.ok imageBuffer =>
        let contentType := jsOr response.contentType "image/webp"
        match decodeURIComponent (jsOr response.topTextHdr "") with
        | Except.error e => Except.error e
        | Except.ok topText =>
          match decodeURIComponent (jsOr response.bottomTextHdr "") with
          | Except.error e => Except.error e
          | Except.ok bottomText =>
            match decodeURIComponent (jsOr response.templateHdr "") with
            | Except.error e => Except.error e
            | Except.ok templateName =>
              Except.ok (some
                { text := genPostText topText bottomText
                  imageBytes := some imageBuffer
                  imageAlt := some (genAltText templateName topText bottomText)
                  imageMimeType := some contentType })

/-- The strategy `fetchGeneratedMeme`: the body wrapped in its `try/catch`, which turns any
exception into the `null` failure value. -/
def fetchGeneratedMeme (env : GenEnv) : Option PostData :=
  match fetchGeneratedMemeBody env with
  | Except.ok v => v
  | Except.error _ => none

/-- Up to 3 of the meme's tags (`(meme.tags as string[])?.slice(0, 3) || []`). -/
def randTags (meme : Meme) : List String :=
  match meme.tags with
  | some ts => ts.take 3
  | none => []

/-- The hashtags rendered from the truncated tags: whitespace stripped,
`#`-prefixed. -/
def randHashtags (meme : Meme) : List String :=
  (randTags meme).map (fun t => "#" ++ stripWs t)

/-- The post text built by `fetchRandomMeme`: the title (or its fixed default
when the title is falsy), with the hashtags appended after a blank line when
any exist. -/
def randPostText (meme : Meme) : String :=
  let base := jsOr meme.title "Fresh meme from snagg.meme"
  if (randHashtags meme).length > 0 then
    base ++ "\n\n" ++ String.intercalate " " (randHashtags meme)
  else base

/-- The alt text chosen by `fetchRandomMeme`:
`meme.ai_alt_text || meme.description || meme.title`. -/
def randImageAlt (meme : Meme) : Option String :=
  jsOrKeep meme.ai_alt_text (jsOrKeep meme.description meme.title)

/-- Body of `fetchRandomMeme` (the code inside its `try`). -/
def fetchRandomMemeBody (env : RandEnv) : Except String (Option PostData) :=
  match env.fetchListing with
  | Except.error e => Except.error e
  | Except.ok response =>
    if !response.ok then Except.ok none
    else
      match response.json with
      | Except.error e => Except.error e
      | Except.ok memesOpt =>
        match memesOpt with
        | none => Except.ok none
        | some memes =>
          match memes with
          | [] => Except.ok none
          | meme :: _ =>
            match env.fetchImage meme.image_url with
            | Except.error e => Except.error e
            | Except.ok imageResponse =>
              if !imageResponse.ok then Except.ok none
              else
                match imageResponse.arrayBuffer with
                | Except.error e => Except.error e
                | Except.ok imageBuffer =>
                  Except.ok (some
                    { text := randPostText meme
                      imageBytes := some imageBuffer
                      imageAlt := randImageAlt meme
                      imageMimeType := some (jsOr imageResponse.contentType "image/webp") })

/-- The strategy `fetchRandomMeme`: the body wrapped in its `try/catch`. -/
def fetchRandomMeme (env : RandEnv) : Option PostData :=
  match fetchRandomMemeBody env with
  | Except.ok v => v
  | Except.error _ => none

/-- Names of the two strategies, for invocation traces. -/
inductive StrategyName where
  | generate
  | random
deriving Repr, DecidableEq

/-- The resolver `getPostText` instrumented with its invocation trace: the result record
together with the ordered list of strategies that were actually invoked. -/
def getPostTextRun (ge : GenEnv) (re : RandEnv) : PostData × List StrategyName :=
  match fetchGeneratedMeme ge with
  | some generated => (generated, [StrategyName.generate])
  | none =>
    match fetchRandomMeme re with
    | some random => (random, [StrategyName.generate, StrategyName.random])
    | none =>
      ({ text := "Check out snagg.meme for fresh memes! 🔥" },
        [StrategyName.generate, StrategyName.random])

/-- The unified `getPostText`: generate first, then random, then the fixed
textual fallback. -/
def getPostText (ge : GenEnv) (re : RandEnv) : PostData :=
  (getPostTextRun ge re).1

end Unified

namespace SingleRequest

/-- The typed meme shape of the single-request variant (`SnaggMeme`). -/
structure SnaggMeme where
  title : String
  slug : String
  description : Option String := none
  image_url : String
  tags : List String := []
  alt_text : Option String := none
  watermarked_image_url : Option String := none
deriving Repr, DecidableEq

/-- The `{ data: { memes }, error }` payload of `GET {base}/random`. -/
structure SnaggRandomResponse where
  memes : List SnaggMeme
  error : Option String := none
deriving Repr, DecidableEq

/-- The single `fetch` response object of this variant. -/
structure P3Response where
  ok : Bool
  status : Nat
  statusText : String
  json : Except String SnaggRandomResponse

/-- Environment of one single-request `getPostText` run. -/
structure P3Env where
  fetchResult : Except String P3Response

/-- Body of the single-request `getPostText` (the code inside its `try`). -/
def getPostTextBody (env : P3Env) : Except String PostData :=
  match env.fetchResult with
  | Except.error e => Except.error e
  | Except.ok response =>
    if !response.ok then
      Except.error ("Failed to fetch from snagg API: " ++ toString response.status
        ++ " " ++ response.statusText)
    else
      match response.json with
      | Except.error e => Except.error e
      | Except.ok result =>
        if jsTruthy result.error then
          Except.error ("Snagg API error: " ++ jsOr result.error "")
        else
          match result.memes with
          | [] => Except.error "No memes returned from API"
          | meme :: _ =>
            let memePageUrl := "https://snagg.meme/meme/" ++ meme.slug
            let imageUrl := jsOr meme.watermarked_image_url meme.image_url
            let imageAlt :=
              jsOr meme.alt_text
                (jsOr meme.description (strOr meme.title "Meme from snagg.meme"))
            Except.ok
              { text := strOr meme.title "Check out this meme from snagg.meme!"
                imageUrl := some imageUrl
                imageAlt := some imageAlt
                externalUrl := some memePageUrl }

/-- The single-request `getPostText`: its `catch` substitutes the fixed
text-only fallback record. -/
def getPostText (env : P3Env) : PostData :=
  match getPostTextBody env with
  | Except.ok r => r
  | Except.error _ => { text := "Check out snagg.meme for some great memes!" }

end SingleRequest

namespace Bot

/-- An opaque uploaded-blob reference (`uploaded.data.blob`). -/
structure BlobRef where
  id : Nat
deriving Repr, DecidableEq

/-- The embed attached to a Bluesky post record: exactly one variant. -/
inductive BskyEmbed where
  | images (image : BlobRef) (alt : String)
  | external (uri : String) (title : String) (descr : String)
deriving Repr, DecidableEq

/-- The record handed to `agent.post`: text, detected facets (opaque tokens)
and an optional embed. -/
structure BskyPostRecord where
  text : String
  facets : List Nat
  embed : Option BskyEmbed := none
deriving Repr, DecidableEq

/-- Environment of one `Bot.post` run: the collaborator network operations. -/
structure BotEnv where
  /-- Facet detection `richText.detectFacets(agent)` (network lookup; may throw). -/
  detectFacets : String → Except String (List Nat)
  /-- The image download `fetch(postData.imageUrl)`. -/
  fetchImage : String → Except String Unified.ImgResponse
  /-- Blob upload `agent.uploadBlob(blob)` on the bytes and MIME type; may throw. -/
  uploadBlob : List Nat → String → Except String BlobRef
  /-- Submission `agent.post(record)`, returning the published `uri`. -/
  submit : BskyPostRecord → Except String String

/-- The assembly phase of `Bot.post`: everything up to (not including) the
final `agent.post` submission, yielding the record that would be submitted.
A failed image fetch or blob upload is an uncaught exception
(`Except.error`). -/
def buildRecord (env : BotEnv) (postData : PostData) : Except String BskyPostRecord :=
  match env.detectFacets postData.text with
  | Except.error e => Except.error e
  | Except.ok facets =>
    if jsTruthy postData.imageUrl then
      match env.fetchImage (jsOr postData.imageUrl "") with
      | Except.error e => Except.error e
      | Except.ok imageResponse =>
        if !imageResponse.ok then
          Except.error ("Failed to fetch image: " ++ imageResponse.statusText)
        else
          match imageResponse.arrayBuffer with
          | Except.error e => Except.error e
          | Except.ok imageBuffer =>
            let mime := jsOr imageResponse.contentType "image/jpeg"
            match env.uploadBlob imageBuffer mime with
            | Except.error e => Except.error e
            | Except.ok uploaded =>
              Except.ok
                { text := postData.text
                  facets := facets
                  embed := some (BskyEmbed.images uploaded (jsOr postData.imageAlt "")) }
    else if jsTruthy postData.externalUrl then
      Except.ok
        { text := postData.text
          facets := facets
          embed := some (BskyEmbed.external (jsOr postData.externalUrl "")
            (jsOr postData.externalTitle "") (jsOr postData.externalDescription "")) }
    else
      Except.ok { text := postData.text, facets := facets, embed := none }

/-- The operation `Bot.post`: assemble the record, then submit it; any error propagates to
the caller (there is no `catch` in `post`). -/
def post (env : BotEnv) (postData : PostData) : Except String String :=
  match buildRecord env postData with
  | Except.error e => Except.error e
  | Except.ok record => env.submit record

end Bot

/-! ### Concrete environments used to witness the theorems -/

/-- A generate run whose single request succeeds with percent-encoded caption
headers. -/
def genOkEnv : Unified.GenEnv :=
  { fetchResult := Except.ok
      { ok := true
        status := 200
        statusText := "OK"
        textBody := Except.ok ""
        arrayBuffer := Except.ok [7, 7, 7]
        contentType := some "image/png"
        topTextHdr := some "WHEN%20THE%20CODE"
        bottomTextHdr := some "FINALLY%20COMPILES"
        templateHdr := none } }

/-- The record `fetchGeneratedMeme` produces on `genOkEnv`. -/
def genOkRecord : PostData :=
  { text := "WHEN THE CODE / FINALLY COMPILES"
    imageBytes := some [7, 7, 7]
    imageAlt := some "Meme - Top text: \"WHEN THE CODE\" - Bottom text: \"FINALLY COMPILES\""
    imageMimeType := some "image/png" }

/-- A generate run whose request throws (network error). -/
def genFailEnv : Unified.GenEnv :=
  { fetchResult := Except.error "network error" }

/-- A random-meme run whose listing request throws. -/
def randFailEnv : Unified.RandEnv :=
  { fetchListing := Except.error "network error"
    fetchImage := fun _ => Except.error "network error" }

/-- A random-meme run that succeeds with a titled, tagged meme. -/
def randOkMeme : Unified.Meme :=
  { title := some "Funny cat"
    image_url := some "https://cdn.example/cat.jpg"
    ai_alt_text := none
    description := some "A cat"
    tags := some ["funny", "cat memes", "lol", "extra"] }

/-- A random-meme environment that serves `randOkMeme` and its image. -/
def randOkEnv : Unified.RandEnv :=
  { fetchListing := Except.ok
      { ok := true
        status := 200
        statusText := "OK"
        json := Except.ok (some [randOkMeme]) }
    fetchImage := fun _ => Except.ok
      { ok := true
        status := 200
        statusText := "OK"
        arrayBuffer := Except.ok [3, 3]
        contentType := some "image/jpeg" } }

/-- The record `fetchRandomMeme` produces on `randOkEnv`. -/
def randOkRecord : PostData :=
  { text := "Funny cat\n\n#funny #catmemes #lol"
    imageBytes := some [3, 3]
    imageAlt := some "A cat"
    imageMimeType := some "image/jpeg" }

/-- A meme whose title is the empty string and whose tag list is empty. -/
def emptyTitleMeme : Unified.Meme :=
  { title := some ""
    image_url := some "https://cdn.example/x.jpg"
    tags := some [] }

/-- A random-meme environment serving `emptyTitleMeme`; every network step
succeeds. -/
def emptyTitleEnv : Unified.RandEnv :=
  { fetchListing := Except.ok
      { ok := true
        status := 200
        statusText := "OK"
        json := Except.ok (some [emptyTitleMeme]) }
    fetchImage := fun _ => Except.ok
      { ok := true
        status := 200
        statusText := "OK"
        arrayBuffer := Except.ok [9]
        contentType := some "image/png" } }

/-- A single-request meme carrying a watermarked image URL. -/
def p3Meme : SingleRequest.SnaggMeme :=
  { title := "T"
    slug := "t-slug"
    description := none
    image_url := "https://cdn.example/orig.jpg"
    alt_text := none
    watermarked_image_url := some "https://cdn.example/wm.jpg" }

/-- A single-request environment serving `p3Meme`. -/
def p3OkEnv : SingleRequest.P3Env :=
  { fetchResult := Except.ok
      { ok := true
        status := 200
        statusText := "OK"
        json := Except.ok { memes := [p3Meme], error := none } } }

/-- The record the single-request body returns on `p3OkEnv`. -/
def p3OkRecord : PostData :=
  { text := "T"
    imageUrl := some "https://cdn.example/wm.jpg"
    imageAlt := some "T"
    externalUrl := some "https://snagg.meme/meme/t-slug" }

/-- A publisher environment where every collaborator operation succeeds. -/
def botOkEnv : Bot.BotEnv :=
  { detectFacets := fun _ => Except.ok []
    fetchImage := fun _ => Except.ok
      { ok := true
        status := 200
        statusText := "OK"
        arrayBuffer := Except.ok [1, 2]
        contentType := some "image/png" }
    uploadBlob := fun _ _ => Except.ok { id := 42 }
    submit := fun _ => Except.ok "at://did:plc:bot/app.bsky.feed.post/1" }

/-- A publisher environment whose image download responds non-ok. -/
def botFetchFailEnv : Bot.BotEnv :=
  { detectFacets := fun _ => Except.ok []
    fetchImage := fun _ => Except.ok
      { ok := false
        status := 404
        statusText := "Not Found"
        arrayBuffer := Except.ok []
        contentType := none }
    uploadBlob := fun _ _ => Except.ok { id := 42 }
    submit := fun _ => Except.ok "at://did:plc:bot/app.bsky.feed.post/1" }

/-- A publisher environment whose blob upload throws. -/
def botUploadFailEnv : Bot.BotEnv :=
  { detectFacets := fun _ => Except.ok []
    fetchImage := fun _ => Except.ok
      { ok := true
        status := 200
        statusText := "OK"
        arrayBuffer := Except.ok [1, 2]
        contentType := some "image/png" }
    uploadBlob := fun _ _ => Except.error "upload failed"
    submit := fun _ => Except.ok "at://did:plc:bot/app.bsky.feed.post/1" }

/-- A content record carrying both an image URL and an external URL. -/
def bothMediaRecord : PostData :=
  { text := "hello"
    imageUrl := some "https://cdn.example/a.jpg"
    imageAlt := some "alt"
    externalUrl := some "https://snagg.meme/meme/a" }

/-- A content record carrying only an image URL. -/
def imgOnlyRecord : PostData :=
  { text := "hi"
    imageUrl := some "https://cdn.example/a.jpg" }

/-- A content record with only its text set. -/
def textOnlyRecord : PostData := { text := "just text" }

/-- The Bluesky record assembled from `bothMediaRecord` under `botOkEnv`. -/
def bothMediaBskyRecord : Bot.BskyPostRecord :=
  { text := "hello"
    facets := []
    embed := some (Bot.BskyEmbed.images { id := 42 } "alt") }

example : Unified.fetchGeneratedMeme genOkEnv = some genOkRecord := by decide
example : Unified.fetchGeneratedMeme genFailEnv = none := by decide
example : Unified.fetchRandomMeme randFailEnv = none := by decide
example : Unified.fetchRandomMeme randOkEnv = some randOkRecord := by decide
example : SingleRequest.getPostTextBody p3OkEnv = Except.ok p3OkRecord := rfl
example : Bot.buildRecord botOkEnv bothMediaRecord = Except.ok bothMediaBskyRecord := rfl

/-! ### Truthiness helper lemmas -/

theorem jsOrKeep_of_truthy (a b : Option String) (h : jsTruthy a = true) :
    jsOrKeep a b = a := by
  cases a with
  | none => simp [jsTruthy] at h
  | some s =>
    by_cases hs : s = "" <;> simp [jsTruthy, hs] at h ⊢ <;> simp [jsOrKeep, hs]

theorem jsOrKeep_of_falsy (a b : Option String) (h : jsTruthy a = false) :
    jsOrKeep a b = b := by
  cases a with
  | none => simp [jsOrKeep]
  | some s =>
    by_cases hs : s = "" <;> simp [jsTruthy, hs] at h ⊢ <;> simp [jsOrKeep, hs]

theorem jsOr_of_truthy (s : String) (d : String) (h : s ≠ "") :
    jsOr (some s) d = s := by
  simp [jsOr, h]

theorem jsOr_of_falsy (o : Option String) (d : String) (h : jsTruthy o = false) :
    jsOr o d = d := by
  cases o with
  | none => simp [jsOr]
  | some s =>
    by_cases hs : s = "" <;> simp [jsTruthy, hs] at h ⊢ <;> simp [jsOr, hs]

/-! ### Inversion lemmas: what a successful run must look like -/

/-- Any record returned by `fetchGeneratedMeme` arises from an ok response
whose body and decoded headers determine every field. -/
theorem Unified.fetchGeneratedMeme_some_inv (env : Unified.GenEnv) (r : PostData)
    (h : Unified.fetchGeneratedMeme env = some r) :
    ∃ response buf top bottom template,
      env.fetchResult = Except.ok response ∧ response.ok = true ∧
      response.arrayBuffer = Except.ok buf ∧
      decodeURIComponent (jsOr response.topTextHdr "") = Except.ok top ∧
      decodeURIComponent (jsOr response.bottomTextHdr "") = Except.ok bottom ∧
      decodeURIComponent (jsOr response.templateHdr "") = Except.ok template ∧
      r = { text := Unified.genPostText top bottom
            imageBytes := some buf
            imageAlt := some (Unified.genAltText template top bottom)
            imageMimeType := some (jsOr response.contentType "image/webp") } := by
  unfold Unified.fetchGeneratedMeme Unified.fetchGeneratedMemeBody at h
  rcases hf : env.fetchResult with e | response <;> rw [hf] at h
  · simp at h
  · cases ho : response.ok
    · rcases ht : response.textBody with e | t <;> simp [ho, ht] at h
    · rcases hab : response.arrayBuffer with e | buf <;>
        simp only [ho, hab, Bool.not_true, Bool.false_eq_true, if_false] at h
      · simp at h
      · rcases htop : decodeURIComponent (jsOr response.topTextHdr "") with e | top <;>
          rw [htop] at h
        · simp at h
        · rcases hbot : decodeURIComponent (jsOr response.bottomTextHdr "") with e | bottom <;>
            rw [hbot] at h
          · simp at h
          · rcases htem : decodeURIComponent (jsOr response.templateHdr "") with e | template <;>
              rw [htem] at h
            · simp at h
            · simp only [Option.some.injEq] at h
              exact ⟨response, buf, top, bottom, template, rfl, ho, hab, htop, hbot, htem,
                h.symm⟩

/-- Any record returned by `fetchRandomMeme` arises from an ok listing whose
first meme and downloaded image determine every field. -/
theorem Unified.fetchRandomMeme_some_inv (env : Unified.RandEnv) (r : PostData)
    (h : Unified.fetchRandomMeme env = some r) :
    ∃ listing meme rest imgResp buf,
      env.fetchListing = Except.ok listing ∧ listing.ok = true ∧
      listing.json = Except.ok (some (meme :: rest)) ∧
      env.fetchImage meme.image_url = Except.ok imgResp ∧ imgResp.ok = true ∧
      imgResp.arrayBuffer = Except.ok buf ∧
      r = { text := Unified.randPostText meme
            imageBytes := some buf
            imageAlt := Unified.randImageAlt meme
            imageMimeType := some (jsOr imgResp.contentType "image/webp") } := by
  unfold Unified.fetchRandomMeme Unified.fetchRandomMemeBody at h
  rcases hf : env.fetchListing with e | listing <;> rw [hf] at h
  · simp at h
  · cases ho : listing.ok
    · simp [ho] at h
    · rcases hj : listing.json with e | memesOpt <;>
        simp only [ho, hj, Bool.not_true, Bool.false_eq_true, if_false] at h
      · simp at h
      · rcases memesOpt with _ | memes
        · simp at h
        · rcases memes with _ | ⟨meme, rest⟩
          · simp at h
          · dsimp only at h
            rcases hi : env.fetchImage meme.image_url with e | imgResp <;> rw [hi] at h
            · simp at h
            · cases hio : imgResp.ok
              · simp [hio] at h
              · rcases hab : imgResp.arrayBuffer with e | buf <;>
                  simp only [hio, hab, Bool.not_true, Bool.false_eq_true, if_false] at h
                · simp at h
                · simp only [Option.some.injEq] at h
                  exact ⟨listing, meme, rest, imgResp, buf, rfl, ho, hj, hi, hio, hab, h.symm⟩

/-- Any record the single-request `getPostText` body returns without throwing
arises from an ok response whose first meme determines every field. -/
theorem SingleRequest.getPostTextBody_ok_inv (env : SingleRequest.P3Env) (r : PostData)
    (h : SingleRequest.getPostTextBody env = Except.ok r) :
    ∃ response result meme rest,
      env.fetchResult = Except.ok response ∧ response.ok = true ∧
      response.json = Except.ok result ∧ jsTruthy result.error = false ∧
      result.memes = meme :: rest ∧
      r = { text := strOr meme.title "Check out this meme from snagg.meme!"
            imageUrl := some (jsOr meme.watermarked_image_url meme.image_url)
            imageAlt := some (jsOr meme.alt_text
              (jsOr meme.description (strOr meme.title "Meme from snagg.meme")))
            externalUrl := some ("https://snagg.meme/meme/" ++ meme.slug) } := by
  unfold SingleRequest.getPostTextBody at h
  rcases hf : env.fetchResult with e | response <;> rw [hf] at h
  · simp at h
  · cases ho : response.ok
    · simp [ho] at h
    · rcases hj : response.json with e | result <;>
        simp only [ho, hj, Bool.not_true, Bool.false_eq_true, if_false] at h
      · simp at h
      · cases he : jsTruthy result.error
        · rcases hm : result.memes with _ | ⟨meme, rest⟩ <;>
            simp only [he, hm, Bool.false_eq_true, if_false] at h
          · simp at h
          · simp only [Except.ok.injEq] at h
            exact ⟨response, result, meme, rest, rfl, ho, hj, he, hm, h.symm⟩
        · simp [he] at h

/-- Any record assembled by `Bot.buildRecord` keeps the input text, carries
the detected facets, and holds no embed or exactly the one selected by the
image-over-external priority. -/
theorem Bot.buildRecord_ok_inv (env : Bot.BotEnv) (pd : PostData) (rec : Bot.BskyPostRecord)
    (h : Bot.buildRecord env pd = Except.ok rec) :
    ∃ facets, env.detectFacets pd.text = Except.ok facets ∧
      rec.text = pd.text ∧ rec.facets = facets ∧
      ((jsTruthy pd.imageUrl = true ∧
          ∃ blob, rec.embed = some (Bot.BskyEmbed.images blob (jsOr pd.imageAlt ""))) ∨
        (jsTruthy pd.imageUrl = false ∧ jsTruthy pd.externalUrl = true ∧
          rec.embed = some (Bot.BskyEmbed.external (jsOr pd.externalUrl "")
            (jsOr pd.externalTitle "") (jsOr pd.externalDescription ""))) ∨
        (jsTruthy pd.imageUrl = false ∧ jsTruthy pd.externalUrl = false ∧
          rec.embed = none)) := by
  unfold Bot.buildRecord at h
  rcases hd : env.detectFacets pd.text with e | facets <;> rw [hd] at h
  · simp at h
  · refine ⟨facets, rfl, ?_⟩
    cases hiu : jsTruthy pd.imageUrl
    · cases heu : jsTruthy pd.externalUrl <;>
        simp only [hiu, heu, Bool.false_eq_true, if_false, if_true, Except.ok.injEq] at h
      · subst h
        exact ⟨rfl, rfl, Or.inr (Or.inr ⟨rfl, rfl, rfl⟩)⟩
      · subst h
        exact ⟨rfl, rfl, Or.inr (Or.inl ⟨rfl, rfl, rfl⟩)⟩
    · simp only [hiu, if_true] at h
      rcases hi : env.fetchImage (jsOr pd.imageUrl "") with e | imgResp <;> rw [hi] at h
      · simp at h
      · cases hio : imgResp.ok
        · simp [hio] at h
        · rcases hab : imgResp.arrayBuffer with e | buf <;>
            simp only [hio, hab, Bool.not_true, Bool.false_eq_true, if_false] at h
          · simp at h
          · rcases hu : env.uploadBlob buf (jsOr imgResp.contentType "image/jpeg")
              with e | uploaded <;> rw [hu] at h
            · simp at h
            · simp only [Except.ok.injEq] at h
              subst h
              exact ⟨rfl, rfl, Or.inl ⟨rfl, uploaded, rfl⟩⟩

/-! ### C1: the fallback resolver's order and short-circuiting -/

/-- C1: the unified `getPostText` invokes the generate strategy first and the
random strategy second, strictly sequentially; the first success
short-circuits, so when the generate strategy succeeds its record is returned,
the trace is just `[generate]`, and the random strategy is never invoked.
When generate fails, both strategies run in order and a random success is
returned. -/
theorem fallback_resolver_order (ge : Unified.GenEnv) (re : Unified.RandEnv) :
    (Unified.getPostTextRun ge re).2.head? = some Unified.StrategyName.generate ∧
    (∀ p, Unified.fetchGeneratedMeme ge = some p →
      Unified.getPostTextRun ge re = (p, [Unified.StrategyName.generate]) ∧
      Unified.StrategyName.random ∉ (Unified.getPostTextRun ge re).2) ∧
    (Unified.fetchGeneratedMeme ge = none →
      (Unified.getPostTextRun ge re).2 =
        [Unified.StrategyName.generate, Unified.StrategyName.random] ∧
      ∀ p, Unified.fetchRandomMeme re = some p →
        (Unified.getPostTextRun ge re).1 = p) := by
  cases hg : Unified.fetchGeneratedMeme ge <;>
    cases hr : Unified.fetchRandomMeme re <;>
      simp [Unified.getPostTextRun, hg, hr]

/-- Witness for C1: on a concrete run where the generate strategy succeeds,
the resolver returns its record and the random strategy never appears in the
invocation trace. -/
theorem fallback_resolver_order_witness :
    Unified.getPostTextRun genOkEnv randFailEnv =
      (genOkRecord, [Unified.StrategyName.generate]) ∧
    Unified.StrategyName.random ∉ (Unified.getPostTextRun genOkEnv randFailEnv).2 :=
  (fallback_resolver_order genOkEnv randFailEnv).2.1 genOkRecord (by decide)

/-! ### C5: total exhaustion substitutes the fixed textual fallback -/

/-- C5: when both strategies fail, `getPostText` returns (rather than throws)
the text-only record whose text is exactly the fixed fallback string. -/
theorem fallback_text_on_total_exhaustion (ge : Unified.GenEnv)
    (re : Unified.RandEnv) (hg : Unified.fetchGeneratedMeme ge = none)
    (hr : Unified.fetchRandomMeme re = none) :
    Unified.getPostText ge re = { text := "Check out snagg.meme for fresh memes! 🔥" } ∧
    textOnly (Unified.getPostText ge re) := by
  have h : Unified.getPostText ge re = { text := "Check out snagg.meme for fresh memes! 🔥" } := by
    simp [Unified.getPostText, Unified.getPostTextRun, hg, hr]
  exact ⟨h, by rw [h]; simp [textOnly]⟩

/-- Witness for C5 at a concrete pair of failing runs. -/
theorem fallback_text_on_total_exhaustion_witness :
    Unified.getPostText genFailEnv randFailEnv =
      { text := "Check out snagg.meme for fresh memes! 🔥" } ∧
    textOnly (Unified.getPostText genFailEnv randFailEnv) :=
  fallback_text_on_total_exhaustion genFailEnv randFailEnv (by decide) (by decide)

/-! ### C4: every produced content record satisfies the data-model invariant -/

/-- C4: every content record produced by a fetch operation — the unified
generate and random strategies, the single-request variant, and the unified
resolver itself — satisfies the ContentRecord invariant: `imageBytes` and
`imageUrl` are never both present, and the record is text-only exactly when
no media field is set. -/
theorem fetch_records_satisfy_invariant :
    (∀ env r, Unified.fetchGeneratedMeme env = some r → recordInvariant r) ∧
    (∀ env r, Unified.fetchRandomMeme env = some r → recordInvariant r) ∧
    (∀ env, recordInvariant (SingleRequest.getPostText env)) ∧
    (∀ ge re, recordInvariant (Unified.getPostText ge re)) := by
  have hgen : ∀ env r, Unified.fetchGeneratedMeme env = some r → recordInvariant r := by
    intro env r h
    obtain ⟨response, buf, top, bottom, template, -, -, -, -, -, -, hr⟩ :=
      Unified.fetchGeneratedMeme_some_inv env r h
    subst hr
    simp [recordInvariant, textOnly, mediaFree]
  have hrand : ∀ env r, Unified.fetchRandomMeme env = some r → recordInvariant r := by
    intro env r h
    obtain ⟨listing, meme, rest, imgResp, buf, -, -, -, -, -, -, hr⟩ :=
      Unified.fetchRandomMeme_some_inv env r h
    subst hr
    simp [recordInvariant, textOnly, mediaFree]
  have hsingle : ∀ env, recordInvariant (SingleRequest.getPostText env) := by
    intro env
    unfold SingleRequest.getPostText
    cases hb : SingleRequest.getPostTextBody env with
    | error e => simp [recordInvariant, textOnly, mediaFree]
    | ok r =>
      obtain ⟨response, result, meme, rest, -, -, -, -, -, hr⟩ :=
        SingleRequest.getPostTextBody_ok_inv env r hb
      subst hr
      simp [recordInvariant, textOnly, mediaFree]
  refine ⟨hgen, hrand, hsingle, ?_⟩
  intro ge re
  unfold Unified.getPostText Unified.getPostTextRun
  cases hg : Unified.fetchGeneratedMeme ge with
  | some p => exact hgen ge p hg
  | none =>
    cases hr : Unified.fetchRandomMeme re with
    | some p => exact hrand re p hr
    | none => simp [recordInvariant, textOnly, mediaFree]

/-- Witness for C4: the invariant holds on the concrete records produced by
the concrete successful runs. -/
theorem fetch_records_satisfy_invariant_witness :
    recordInvariant genOkRecord ∧ recordInvariant randOkRecord ∧
    recordInvariant (SingleRequest.getPostText p3OkEnv) :=
  ⟨fetch_records_satisfy_invariant.1 genOkEnv genOkRecord (by decide),
    fetch_records_satisfy_invariant.2.1 randOkEnv randOkRecord (by decide),
    fetch_records_satisfy_invariant.2.2.1 p3OkEnv⟩

/-! ### C3: embed selection in `Bot.post` -/

/-- C3: the record assembled by `Bot.post` carries no embed or exactly one
embed variant; a truthy `imageUrl` always yields the image embed (so the
image wins when both `imageUrl` and `externalUrl` are present); and a record
with none of the media fields set yields no embed. -/
theorem post_embed_selection (env : Bot.BotEnv) (pd : PostData)
    (rec : Bot.BskyPostRecord) (h : Bot.buildRecord env pd = Except.ok rec) :
    (rec.embed = none ∨
      (∃ b a, rec.embed = some (Bot.BskyEmbed.images b a)) ∨
      (∃ u t d, rec.embed = some (Bot.BskyEmbed.external u t d))) ∧
    (jsTruthy pd.imageUrl = true →
      ∃ b, rec.embed = some (Bot.BskyEmbed.images b (jsOr pd.imageAlt ""))) ∧
    (jsTruthy pd.imageUrl = true → jsTruthy pd.externalUrl = true →
      ∃ b, rec.embed = some (Bot.BskyEmbed.images b (jsOr pd.imageAlt ""))) ∧
    (pd.imageBytes = none → pd.imageUrl = none → pd.externalUrl = none →
      rec.embed = none) := by
  obtain ⟨facets, hd, htext, hfacets, hcases⟩ := Bot.buildRecord_ok_inv env pd rec h
  rcases hcases with ⟨hiu, blob, hemb⟩ | ⟨hiu, heu, hemb⟩ | ⟨hiu, heu, hemb⟩
  · refine ⟨Or.inr (Or.inl ⟨blob, _, hemb⟩), ?_, ?_, ?_⟩
    · intro _; exact ⟨blob, hemb⟩
    · intro _ _; exact ⟨blob, hemb⟩
    · intro _ hurl _; rw [hurl] at hiu; simp [jsTruthy] at hiu
  · refine ⟨Or.inr (Or.inr ⟨_, _, _, hemb⟩), ?_, ?_, ?_⟩
    · intro h'; rw [h'] at hiu; exact absurd hiu (by simp)
    · intro h' _; rw [h'] at hiu; exact absurd hiu (by simp)
    · intro _ _ hurl; rw [hurl] at heu; simp [jsTruthy] at heu
  · refine ⟨Or.inl hemb, ?_, ?_, ?_⟩
    · intro h'; rw [h'] at hiu; exact absurd hiu (by simp)
    · intro h' _; rw [h'] at hiu; exact absurd hiu (by simp)
    · intro _ _ _; exact hemb

/-- Witness for C3: on a concrete record holding both an image URL and an
external URL, the assembled embed is the image embed. -/
theorem post_embed_selection_witness :
    ∃ b, bothMediaBskyRecord.embed =
      some (Bot.BskyEmbed.images b (jsOr bothMediaRecord.imageAlt "")) :=
  (post_embed_selection botOkEnv bothMediaRecord bothMediaBskyRecord rfl).2.2.1
    rfl rfl

/-! ### C2: image-asset failures are hard errors in `Bot.post` -/

/-- C2: when the record carries an image URL, every failure mode of the image
resolution — the image fetch throwing, the response being non-ok, its body
read throwing, or the blob upload throwing — makes `Bot.post` propagate an
error to its caller; and whenever assembly does succeed the record carries
the image embed, so an image post is never silently downgraded to text-only. -/
theorem post_image_failure_is_hard_error (env : Bot.BotEnv) (pd : PostData)
    (facets : List Nat) (himg : jsTruthy pd.imageUrl = true)
    (hd : env.detectFacets pd.text = Except.ok facets) :
    (∀ e, env.fetchImage (jsOr pd.imageUrl "") = Except.error e →
      Bot.post env pd = Except.error e) ∧
    (∀ resp, env.fetchImage (jsOr pd.imageUrl "") = Except.ok resp →
      resp.ok = false →
      Bot.post env pd = Except.error ("Failed to fetch image: " ++ resp.statusText)) ∧
    (∀ resp e, env.fetchImage (jsOr pd.imageUrl "") = Except.ok resp →
      resp.ok = true → resp.arrayBuffer = Except.error e →
      Bot.post env pd = Except.error e) ∧
    (∀ resp buf e, env.fetchImage (jsOr pd.imageUrl "") = Except.ok resp →
      resp.ok = true → resp.arrayBuffer = Except.ok buf →
      env.uploadBlob buf (jsOr resp.contentType "image/jpeg") = Except.error e →
      Bot.post env pd = Except.error e) ∧
    (∀ rec, Bot.buildRecord env pd = Except.ok rec →
      ∃ b, rec.embed = some (Bot.BskyEmbed.images b (jsOr pd.imageAlt ""))) := by
  refine ⟨?_, ?_, ?_, ?_, ?_⟩
  · intro e hi
    unfold Bot.post Bot.buildRecord
    rw [hd]
    simp [himg, hi]
  · intro resp hi ho
    unfold Bot.post Bot.buildRecord
    rw [hd]
    simp [himg, hi, ho]
  · intro resp e hi ho hab
    unfold Bot.post Bot.buildRecord
    rw [hd]
    simp [himg, hi, ho, hab]
  · intro resp buf e hi ho hab hu
    unfold Bot.post Bot.buildRecord
    rw [hd]
    simp [himg, hi, ho, hab, hu]
  · intro rec hrec
    exact (post_embed_selection env pd rec hrec).2.1 himg

/-- Witness for C2: with a concrete non-ok image response, `Bot.post` on a
record with an image URL returns the fetch error; with a concrete failing
upload it returns the upload error. -/
theorem post_image_failure_is_hard_error_witness :
    Bot.post botFetchFailEnv imgOnlyRecord =
      Except.error "Failed to fetch image: Not Found" ∧
    Bot.post botUploadFailEnv imgOnlyRecord = Except.error "upload failed" :=
  ⟨(post_image_failure_is_hard_error botFetchFailEnv imgOnlyRecord [] rfl rfl).2.1
      _ rfl rfl,
    (post_image_failure_is_hard_error botUploadFailEnv imgOnlyRecord [] rfl rfl).2.2.2.1
      _ [1, 2] _ rfl rfl rfl rfl⟩

/-! ### C6: the fetch strategies fail closed -/

/-- C6: each fetch strategy signals failure by returning `none` and never lets
an exception escape: any exception inside the body is caught (first two
conjuncts), and every failure mode — network error, non-2xx response,
malformed body or header, malformed or empty listing, image-download
failure — yields `none`. -/
theorem strategies_fail_closed :
    (∀ env e, Unified.fetchGeneratedMemeBody env = Except.error e →
      Unified.fetchGeneratedMeme env = none) ∧
    (∀ env e, Unified.fetchRandomMemeBody env = Except.error e →
      Unified.fetchRandomMeme env = none) ∧
    (∀ env e, env.fetchResult = Except.error e →
      Unified.fetchGeneratedMeme env = none) ∧
    (∀ env resp, env.fetchResult = Except.ok resp → resp.ok = false →
      Unified.fetchGeneratedMeme env = none) ∧
    (∀ env resp e, env.fetchResult = Except.ok resp → resp.ok = true →
      resp.arrayBuffer = Except.error e → Unified.fetchGeneratedMeme env = none) ∧
    (∀ env resp buf e, env.fetchResult = Except.ok resp → resp.ok = true →
      resp.arrayBuffer = Except.ok buf →
      decodeURIComponent (jsOr resp.topTextHdr "") = Except.error e →
      Unified.fetchGeneratedMeme env = none) ∧
    (∀ env e, env.fetchListing = Except.error e →
      Unified.fetchRandomMeme env = none) ∧
    (∀ env listing, env.fetchListing = Except.ok listing → listing.ok = false →
      Unified.fetchRandomMeme env = none) ∧
    (∀ env listing e, env.fetchListing = Except.ok listing → listing.ok = true →
      listing.json = Except.error e → Unified.fetchRandomMeme env = none) ∧
    (∀ env listing, env.fetchListing = Except.ok listing → listing.ok = true →
      listing.json = Except.ok none → Unified.fetchRandomMeme env = none) ∧
    (∀ env listing, env.fetchListing = Except.ok listing → listing.ok = true →
      listing.json = Except.ok (some []) → Unified.fetchRandomMeme env = none) ∧
    (∀ env listing meme rest e, env.fetchListing = Except.ok listing →
      listing.ok = true → listing.json = Except.ok (some (meme :: rest)) →
      env.fetchImage meme.image_url = Except.error e →
      Unified.fetchRandomMeme env = none) ∧
    (∀ env listing meme rest imgResp, env.fetchListing = Except.ok listing →
      listing.ok = true → listing.json = Except.ok (some (meme :: rest)) →
      env.fetchImage meme.image_url = Except.ok imgResp → imgResp.ok = false →
      Unified.fetchRandomMeme env = none) := by
  refine ⟨?_, ?_, ?_, ?_, ?_, ?_, ?_, ?_, ?_, ?_, ?_, ?_, ?_⟩
  · intro env e h
    simp [Unified.fetchGeneratedMeme, h]
  · intro env e h
    simp [Unified.fetchRandomMeme, h]
  · intro env e hf
    simp [Unified.fetchGeneratedMeme, Unified.fetchGeneratedMemeBody, hf]
  · intro env resp hf ho
    cases ht : resp.textBody <;>
      simp [Unified.fetchGeneratedMeme, Unified.fetchGeneratedMemeBody, hf, ho, ht]
  · intro env resp e hf ho hab
    simp [Unified.fetchGeneratedMeme, Unified.fetchGeneratedMemeBody, hf, ho, hab]
  · intro env resp buf e hf ho hab htop
    simp [Unified.fetchGeneratedMeme, Unified.fetchGeneratedMemeBody, hf, ho, hab, htop]
  · intro env e hf
    simp [Unified.fetchRandomMeme, Unified.fetchRandomMemeBody, hf]
  · intro env listing hf ho
    simp [Unified.fetchRandomMeme, Unified.fetchRandomMemeBody, hf, ho]
  · intro env listing e hf ho hj
    simp [Unified.fetchRandomMeme, Unified.fetchRandomMemeBody, hf, ho, hj]
  · intro env listing hf ho hj
    simp [Unified.fetchRandomMeme, Unified.fetchRandomMemeBody, hf, ho, hj]
  · intro env listing hf ho hj
    simp [Unified.fetchRandomMeme, Unified.fetchRandomMemeBody, hf, ho, hj]
  · intro env listing meme rest e hf ho hj hi
    simp [Unified.fetchRandomMeme, Unified.fetchRandomMemeBody, hf, ho, hj, hi]
  · intro env listing meme rest imgResp hf ho hj hi hio
    simp [Unified.fetchRandomMeme, Unified.fetchRandomMemeBody, hf, ho, hj, hi, hio]

/-- Witness for C6: both strategies return `none` on concrete network
errors. -/
theorem strategies_fail_closed_witness :
    Unified.fetchGeneratedMeme genFailEnv = none ∧
    Unified.fetchRandomMeme randFailEnv = none :=
  ⟨strategies_fail_closed.2.2.1 genFailEnv "network error" rfl,
    strategies_fail_closed.2.2.2.2.2.2.1 randFailEnv "network error" rfl⟩

/-! ### C7: the generated-meme post text from the decoded captions -/

/-- C7: on every successful generate run, the text is the two decoded caption
headers joined by " / " when both are non-empty, the single non-empty caption
alone when exactly one is, and the fixed default string when neither is. -/
theorem generated_text_caption_cases (env : Unified.GenEnv) (r : PostData)
    (h : Unified.fetchGeneratedMeme env = some r) :
    ∃ response top bottom,
      env.fetchResult = Except.ok response ∧
      decodeURIComponent (jsOr response.topTextHdr "") = Except.ok top ∧
      decodeURIComponent (jsOr response.bottomTextHdr "") = Except.ok bottom ∧
      (top ≠ "" → bottom ≠ "" → r.text = top ++ " / " ++ bottom) ∧
      (top ≠ "" → bottom = "" → r.text = top) ∧
      (top = "" → bottom ≠ "" → r.text = bottom) ∧
      (top = "" → bottom = "" → r.text = "Fresh meme from snagg.meme 🔥") := by
  obtain ⟨response, buf, top, bottom, template, hf, -, -, htop, hbot, -, hr⟩ :=
    Unified.fetchGeneratedMeme_some_inv env r h
  subst hr
  refine ⟨response, top, bottom, hf, htop, hbot, ?_, ?_, ?_, ?_⟩
  · intro h1 h2
    simp [Unified.genPostText, h1, h2]
  · intro h1 h2
    simp [Unified.genPostText, strOr, h1, h2]
  · intro h1 h2
    simp [Unified.genPostText, strOr, h1, h2]
  · intro h1 h2
    simp [Unified.genPostText, h1, h2]

/-- Witness for C7: the spec's example captions produce
"WHEN THE CODE / FINALLY COMPILES". -/
theorem generated_text_caption_cases_witness :
    (∃ response top bottom,
      genOkEnv.fetchResult = Except.ok response ∧
      decodeURIComponent (jsOr response.topTextHdr "") = Except.ok top ∧
      decodeURIComponent (jsOr response.bottomTextHdr "") = Except.ok bottom ∧
      (top ≠ "" → bottom ≠ "" → genOkRecord.text = top ++ " / " ++ bottom) ∧
      (top ≠ "" → bottom = "" → genOkRecord.text = top) ∧
      (top = "" → bottom ≠ "" → genOkRecord.text = bottom) ∧
      (top = "" → bottom = "" → genOkRecord.text = "Fresh meme from snagg.meme 🔥")) ∧
    genOkRecord.text = "WHEN THE CODE / FINALLY COMPILES" :=
  ⟨generated_text_caption_cases genOkEnv genOkRecord (by decide), by decide⟩

/-! ### C8: the random-meme post text

The claim as stated fails on a meme whose title is the empty string: the code
substitutes the fixed default "Fresh meme from snagg.meme" instead of using
the (empty) title, so the text is not "the item's title" there. -/

/-- C8 counterexample: a fully successful random run whose meme has the empty
title and no tags produces the default text, not the title alone (which would
be the empty string). -/
theorem random_text_title_counterexample :
    emptyTitleMeme.title = some "" ∧
    Unified.randTags emptyTitleMeme = [] ∧
    (Unified.fetchRandomMeme emptyTitleEnv).map PostData.text =
      some "Fresh meme from snagg.meme" ∧
    (Unified.fetchRandomMeme emptyTitleEnv).map PostData.text ≠ some "" := by
  decide

/-- C8 amended: on every successful random run, the text is the meme's title
— or the fixed default "Fresh meme from snagg.meme" when the title is absent
or empty — followed, when at least one tag exists, by a blank line and at
most 3 tags rendered as `#`-prefixed, whitespace-stripped hashtags joined by
single spaces; with zero tags the text is the title (or default) alone. -/
theorem random_text_title_hashtags (env : Unified.RandEnv) (r : PostData)
    (h : Unified.fetchRandomMeme env = some r) :
    ∃ listing meme rest,
      env.fetchListing = Except.ok listing ∧
      listing.json = Except.ok (some (meme :: rest)) ∧
      (∀ ts, meme.tags = some ts → Unified.randTags meme = ts.take 3) ∧
      (meme.tags = none → Unified.randTags meme = []) ∧
      (Unified.randTags meme).length ≤ 3 ∧
      (Unified.randTags meme = [] →
        r.text = jsOr meme.title "Fresh meme from snagg.meme") ∧
      (Unified.randTags meme ≠ [] →
        r.text = jsOr meme.title "Fresh meme from snagg.meme" ++ "\n\n" ++
          String.intercalate " "
            ((Unified.randTags meme).map (fun t => "#" ++ stripWs t))) := by
  obtain ⟨listing, meme, rest, imgResp, buf, hf, -, hj, -, -, -, hr⟩ :=
    Unified.fetchRandomMeme_some_inv env r h
  subst hr
  refine ⟨listing, meme, rest, hf, hj, ?_, ?_, ?_, ?_, ?_⟩
  · intro ts hts
    simp [Unified.randTags, hts]
  · intro hts
    simp [Unified.randTags, hts]
  · cases hts : meme.tags with
    | none => simp [Unified.randTags, hts]
    | some ts => simp [Unified.randTags, hts]
  · intro h0
    simp [Unified.randPostText, Unified.randHashtags, h0]
  · intro h0
    have hpos : 0 < (Unified.randTags meme).length := List.length_pos.mpr h0
    simp [Unified.randPostText, Unified.randHashtags, hpos]

/-- Witness for the amended C8: on the concrete successful run the text is
the title, a blank line, and the three truncated hashtags. -/
theorem random_text_title_hashtags_witness :
    (∃ listing meme rest,
      randOkEnv.fetchListing = Except.ok listing ∧
      listing.json = Except.ok (some (meme :: rest)) ∧
      (∀ ts, meme.tags = some ts → Unified.randTags meme = ts.take 3) ∧
      (meme.tags = none → Unified.randTags meme = []) ∧
      (Unified.randTags meme).length ≤ 3 ∧
      (Unified.randTags meme = [] →
        randOkRecord.text = jsOr meme.title "Fresh meme from snagg.meme") ∧
      (Unified.randTags meme ≠ [] →
        randOkRecord.text = jsOr meme.title "Fresh meme from snagg.meme" ++ "\n\n" ++
          String.intercalate " "
            ((Unified.randTags meme).map (fun t => "#" ++ stripWs t)))) ∧
    randOkRecord.text = "Funny cat\n\n#funny #catmemes #lol" :=
  ⟨random_text_title_hashtags randOkEnv randOkRecord (by decide), by decide⟩

/-! ### C9: the random-meme alt-text tier order -/

/-- C9: on every successful random run, `imageAlt` is the meme's AI alt text
when that is present (non-empty), else its description when present, else its
title — reading "present" as JS truthiness, which is how the source's `||`
chain selects the tiers. -/
theorem random_alt_tier_order (env : Unified.RandEnv) (r : PostData)
    (h : Unified.fetchRandomMeme env = some r) :
    ∃ listing meme rest,
      env.fetchListing = Except.ok listing ∧
      listing.json = Except.ok (some (meme :: rest)) ∧
      (jsTruthy meme.ai_alt_text = true → r.imageAlt = meme.ai_alt_text) ∧
      (jsTruthy meme.ai_alt_text = false → jsTruthy meme.description = true →
        r.imageAlt = meme.description) ∧
      (jsTruthy meme.ai_alt_text = false → jsTruthy meme.description = false →
        r.imageAlt = meme.title) := by
  obtain ⟨listing, meme, rest, imgResp, buf, hf, -, hj, -, -, -, hr⟩ :=
    Unified.fetchRandomMeme_some_inv env r h
  subst hr
  refine ⟨listing, meme, rest, hf, hj, ?_, ?_, ?_⟩
  · intro h1
    simp only [Unified.randImageAlt]
    rw [jsOrKeep_of_truthy _ _ h1]
  · intro h1 h2
    simp only [Unified.randImageAlt]
    rw [jsOrKeep_of_falsy _ _ h1, jsOrKeep_of_truthy _ _ h2]
  · intro h1 h2
    simp only [Unified.randImageAlt]
    rw [jsOrKeep_of_falsy _ _ h1, jsOrKeep_of_falsy _ _ h2]

/-- Witness for C9: on the concrete run the AI alt text is absent, so the
description tier is chosen. -/
theorem random_alt_tier_order_witness :
    (∃ listing meme rest,
      randOkEnv.fetchListing = Except.ok listing ∧
      listing.json = Except.ok (some (meme :: rest)) ∧
      (jsTruthy meme.ai_alt_text = true → randOkRecord.imageAlt = meme.ai_alt_text) ∧
      (jsTruthy meme.ai_alt_text = false → jsTruthy meme.description = true →
        randOkRecord.imageAlt = meme.description) ∧
      (jsTruthy meme.ai_alt_text = false → jsTruthy meme.description = false →
        randOkRecord.imageAlt = meme.title)) ∧
    randOkRecord.imageAlt = some "A cat" :=
  ⟨random_alt_tier_order randOkEnv randOkRecord (by decide), by decide⟩

/-! ### C10: the single-request variant's image-URL preference -/

/-- C10: on every successfully parsed meme of the single-request variant, the
returned record's `imageUrl` is the meme's `watermarked_image_url` whenever
that field is present and non-empty, and the meme's `image_url` otherwise. -/
theorem single_request_image_url_preference (env : SingleRequest.P3Env)
    (r : PostData) (h : SingleRequest.getPostTextBody env = Except.ok r) :
    ∃ response result meme rest,
      env.fetchResult = Except.ok response ∧
      response.json = Except.ok result ∧
      result.memes = meme :: rest ∧
      SingleRequest.getPostText env = r ∧
      (∀ w, meme.watermarked_image_url = some w → w ≠ "" →
        r.imageUrl = some w) ∧
      (jsTruthy meme.watermarked_image_url = false →
        r.imageUrl = some meme.image_url) := by
  obtain ⟨response, result, meme, rest, hf, -, hj, -, hm, hr⟩ :=
    SingleRequest.getPostTextBody_ok_inv env r h
  subst hr
  refine ⟨response, result, meme, rest, hf, hj, hm,
    by simp [SingleRequest.getPostText, h], ?_, ?_⟩
  · intro w hw hne
    simp [hw, jsOr_of_truthy w meme.image_url hne]
  · intro hfalse
    simp [jsOr_of_falsy _ _ hfalse]

/-- Witness for C10: on the concrete run the watermarked URL is present and
chosen. -/
theorem single_request_image_url_preference_witness :
    (∃ response result meme rest,
      p3OkEnv.fetchResult = Except.ok response ∧
      response.json = Except.ok result ∧
      result.memes = meme :: rest ∧
      SingleRequest.getPostText p3OkEnv = p3OkRecord ∧
      (∀ w, meme.watermarked_image_url = some w → w ≠ "" →
        p3OkRecord.imageUrl = some w) ∧
      (jsTruthy meme.watermarked_image_url = false →
        p3OkRecord.imageUrl = some meme.image_url)) ∧
    p3OkRecord.imageUrl = some "https://cdn.example/wm.jpg" :=
  ⟨single_request_image_url_preference p3OkEnv p3OkRecord rfl, by decide⟩
